import Mathlib

/-!
Verification development for the YIL_TR_AUTO position lifecycle and order
execution engine (`kis_trading.py`, `kis_pos_db.py`, `kis_functions.py`,
`kis_scheduler.py`).

Modelling conventions:
* Prices, cash amounts and timestamps are rationals (`ℚ`).  The Python code
  uses floats, but every value the claims touch is small and decimally
  representable, so exact rational arithmetic matches the float computation.
* Timestamps (`open_time`, `valid_until`, wall-clock `now`, times-of-day)
  are rationals (seconds); ISO parsing (`parse_iso_aware`) is collapsed into
  `Option ℚ`: `none` models an absent or unparseable string, `some t` a
  parsed instant.  `datetime`/`dtime` comparisons become `≤`/`<` on `ℚ`.
* Python `int(x)` truncation toward zero is `pyInt`; Python `//` on ints is
  floor division, `Int.fdiv`.  Python `.upper()`/`.lower()` are `pyUpper`/
  `pyLower` (ASCII case mapping, which is all the code's inputs use).
* Broker calls that can raise are modelled with `PyResult`; a KIS response
  dict is `Resp`; broker endpoints (`buy_limit`, `sell_market`,
  `sell_limit`, `cancel`, `get_quote`, best-bid retrieval) are oracle
  functions supplied as arguments, standing for the network.
* The note string that carries `order_id=...` (written by
  `build_note_with_order_id`, read back by the regex in `extract_order_id`,
  amended with `" | expired_pending"` by `expire_pending_orders`) is
  modelled by the structured `Note` record; the regex round-trip is the
  field `order_id`.
* The position store functions `insert_position`, `close_position`,
  `get_positions_by_status`, `get_codes_by_status` and
  `update_position_fields` are imported by `kis_trading.py` but are absent
  from `kis_pos_db.py` (see the import-error development at the end); they
  are modelled from the spec (§6 Position Store contract), with
  `close_position`'s realized analytics following the formulas of
  `close_positions_for_code` in `kis_pos_db.py`: the store is a list of
  records, `update`/`close` rewrite the records with the matching id.
* CSV-metadata columns of the `Position` dataclass that no claim touches
  (`score_1w`, `rr`, `confidence`, `horizon`, `holding_days_plan`,
  `risk_cap_used`, `source_file`, `summary_h1..h3`, `warn_bad_rr`) are
  omitted from the record, and the weekend-skipping `valid_until` fallback
  (`compute_valid_until_fallback`) is carried as a precomputed
  `fallback_valid_until` datum on the signal, since no claim depends on the
  calendar arithmetic itself.
-/

set_option maxRecDepth 4000

namespace YilTrAuto

/-- Position status values used by the engine (`kis_trading.py`).  The
admission query additionally mentions a `CLOSING` status. -/
inductive Status where
  | PENDING
  | OPEN
  | EXPIRED
  | CANCELLED
  | CLOSED
  | CLOSING
deriving DecidableEq

/-- Structured model of the free-form `note` string: `base` is the human
text, `order_id` the broker order reference appended as `" | order_id=..."`
by `build_note_with_order_id` and recovered by the regex in
`extract_order_id`, `expired_pending` the `" | expired_pending"` marker
appended by `expire_pending_orders`. -/
structure Note where
  base : String
  order_id : Option String := none
  expired_pending : Bool := false
deriving DecidableEq

/-- The `Position` dataclass of `kis_pos_db.py`, restricted to the fields
the claims touch (see file header). -/
structure Position where
  id : Nat
  code : String
  name : String
  side : String
  qty : Int
  entry : ℚ
  tp : Option ℚ
  sl : Option ℚ
  open_time : ℚ
  close_time : Option ℚ
  status : Status
  exit_price : Option ℚ
  exit_reason : Option String
  valid_until : Option ℚ
  gross_pnl : Option ℚ
  pnl_pct : Option ℚ
  holding_days_real : Option ℚ
  note : Note
deriving DecidableEq

/-- Result of a Python call that may raise (`try`/`except`). -/
inductive PyResult (α : Type) where
  | ok (val : α)
  | exn
deriving DecidableEq

/-- A KIS API response: either a dict (with the fields `is_kis_order_ok`
and `build_note_with_order_id` look at: `rt_cd`, `msg1`, `odno`) or a
non-dict payload. -/
inductive Resp where
  | dict (rt_cd : String) (msg1 : String) (odno : Option String)
  | nonDict
deriving DecidableEq

/-- ASCII lower-to-upper case mapping of one character (Python `.upper()`
on the code's inputs). -/
def pyUpperChar (c : Char) : Char :=
  if 'a' ≤ c ∧ c ≤ 'z' then Char.ofNat (c.toNat - 32) else c

/-- ASCII upper-to-lower case mapping of one character (Python `.lower()`
on the code's inputs). -/
def pyLowerChar (c : Char) : Char :=
  if 'A' ≤ c ∧ c ≤ 'Z' then Char.ofNat (c.toNat + 32) else c

/-- Python `s.upper()` (ASCII). -/
def pyUpper (s : String) : String := String.mk (s.toList.map pyUpperChar)

/-- Python `s.lower()` (ASCII). -/
def pyLower (s : String) : String := String.mk (s.toList.map pyLowerChar)

/-- `as` begins `bs` (character-list comparison). -/
def beginsWith : List Char → List Char → Bool
  | [], _ => true
  | _ :: _, [] => false
  | a :: as, b :: bs => a = b && beginsWith as bs

/-- `pat` occurs contiguously inside the list (Python `pat in s`). -/
def containsSeq (pat : List Char) : List Char → Bool
  | [] => beginsWith pat []
  | c :: cs => beginsWith pat (c :: cs) || containsSeq pat cs

/-- Python `pat in s` on strings. -/
def strContains (s pat : String) : Bool :=
  containsSeq pat.toList s.toList

/-- `is_kis_order_ok` (kis_trading.py:98-111): a response is a success only
if it is a dict with `rt_cd == "0"`, or its `msg1` contains `"정상"` or
(lower-cased) `"success"`. -/
def is_kis_order_ok : Resp → Bool
  | Resp.nonDict => false
  | Resp.dict rt_cd msg1 _ =>
    if rt_cd = "0" then true
    else if strContains msg1 "정상" || strContains (pyLower msg1) "success" then true
    else false

/-- Python `int(x)` on a float/rational: truncation toward zero. -/
def pyInt (q : ℚ) : Int :=
  if q < 0 then -(⌊-q⌋) else ⌊q⌋

/-- `krx_tick_size` (kis_trading.py:125-139): the KRX price-grid step for a
price bracket. -/
def krx_tick_size (price : ℚ) : Int :=
  if price < 1000 then 1
  else if price < 5000 then 5
  else if price < 10000 then 10
  else if price < 50000 then 50
  else if price < 100000 then 100
  else if price < 500000 then 500
  else 1000

/-- `align_price_to_tick` (kis_trading.py:142-158): BUY rounds down to the
grid, SELL rounds up; a non-positive result is replaced by one tick.  The
`tick <= 0` guard is dead code (`krx_tick_size` is always ≥ 1); its
`int(round(p))` is modelled by `round`. -/
def align_price_to_tick (price : ℚ) (side : String) : Int :=
  let tick := krx_tick_size price
  if tick ≤ 0 then round price
  else
    let aligned : Int :=
      if pyUpper side = "BUY" then (pyInt price).fdiv tick * tick
      else ((pyInt price) + tick - 1).fdiv tick * tick
    if aligned ≤ 0 then tick else aligned

/-- `calc_force_band` (kis_trading.py:609-615): midpoints between entry and
tp / entry and sl, returned as an ordered pair (lo, hi); `None` when tp or
sl is missing. -/
def calc_force_band (entry : ℚ) (tp sl : Option ℚ) : Option (ℚ × ℚ) :=
  match tp, sl with
  | some t, some s =>
    let mid_tp := entry + (t - entry) * (1 / 2)
    let mid_sl := entry - (entry - s) * (1 / 2)
    if mid_sl ≤ mid_tp then some (mid_sl, mid_tp) else some (mid_tp, mid_sl)
  | _, _ => none

/-- The TP/SL trigger of `process_open_positions` (kis_trading.py:548-553):
for a BUY position take-profit is checked first (`cur ≥ tp`), then
stop-loss (`cur ≤ sl`) via `elif`, so at most one reason is produced. -/
def exit_reason_for (pos : Position) (cur : ℚ) : Option String :=
  if pyUpper pos.side = "BUY" then
    let tpHit : Bool := match pos.tp with
      | some t => decide (t ≤ cur)
      | none => false
    let slHit : Bool := match pos.sl with
      | some s => decide (cur ≤ s)
      | none => false
    if tpHit then some "TP"
    else if slHit then some "SL"
    else none
  else none

/-- `extract_order_id` (kis_trading.py:263-267) on the structured note
model: the regex recovery of `order_id=...` is the stored field. -/
def extract_order_id (n : Note) : Option String := n.order_id

/-- `build_note_with_order_id` (kis_trading.py:270-280): start from the
base text and attach the order number when the response is a dict carrying
a non-empty `odno` (Python truthiness: an empty string is not attached). -/
def build_note_with_order_id (base : String) (resp : Resp) : Note :=
  match resp with
  | Resp.dict _ _ (some tag) => if tag = "" then { base := base } else { base := base, order_id := some tag }
  | _ => { base := base }

/-- The `" | expired_pending"` marker append of `expire_pending_orders`
(kis_trading.py:489-491): added only if not already present. -/
def note_mark_expired (n : Note) : Note :=
  if n.expired_pending then n else { n with expired_pending := true }

/-! ### Position store (modelled from the spec)

`insert_position`, `close_position`, `get_positions_by_status`,
`get_codes_by_status` and `update_position_fields` are required by
`kis_trading.py` (its header docstring lists them as mandatory additions)
but are absent from `kis_pos_db.py`.  They are modelled from the spec's
Position Store contract (§6): the store is the list of records, queries
filter by status, and mutations rewrite every record with the matching id
(SQL `UPDATE ... WHERE id = ?`).  `close_position`'s realized analytics
follow `close_positions_for_code` (kis_pos_db.py:318-355). -/

/-- Rewrite the records whose id is `i` with `g` (SQL `UPDATE ... WHERE
id = ?`). -/
def mapAt (db : List Position) (i : Nat) (g : Position → Position) : List Position :=
  db.map (fun p => if p.id = i then g p else p)

/-- A partial field update, as passed to `update_position_fields`:
only the fields the engine ever updates are representable. -/
structure Fields where
  status : Option Status := none
  qty : Option Int := none
  entry : Option ℚ := none
  note : Option Note := none
deriving DecidableEq

/-- Apply a partial field update to one record. -/
def applyFields (f : Fields) (p : Position) : Position :=
  { p with
    status := f.status.getD p.status
    qty := f.qty.getD p.qty
    entry := f.entry.getD p.entry
    note := f.note.getD p.note }

/-- Modelled from the spec: `update_position_fields(pos_id, fields)`
(store contract `update_fields(id, partial) → bool`; the boolean is only
logged by the callers and is not modelled). -/
def update_position_fields (db : List Position) (i : Nat) (f : Fields) : List Position :=
  mapAt db i (applyFields f)

/-- The record rewrite performed by closing a position: status CLOSED,
close bookkeeping, and the realized analytics `gross_pnl = (exit − entry) ·
qty`, `pnl_pct = (exit − entry)/entry · 100`, `holding_days_real =
(close − open)/86400` of `close_positions_for_code`. -/
def closeWith (exitPrice exitTime : ℚ) (reason : String) (p : Position) : Position :=
  { p with
    status := Status.CLOSED
    close_time := some exitTime
    exit_price := some exitPrice
    exit_reason := some reason
    gross_pnl := some ((exitPrice - p.entry) * p.qty)
    pnl_pct := some ((exitPrice - p.entry) / p.entry * 100)
    holding_days_real := some ((exitTime - p.open_time) / 86400) }

/-- Modelled from the spec: `close_position(pos_id, exit_price, exit_time,
exit_reason)` (store contract `close(id, ...)`, computing and persisting
the realized analytics). -/
def close_position (db : List Position) (i : Nat) (exitPrice exitTime : ℚ)
    (reason : String) : List Position :=
  mapAt db i (closeWith exitPrice exitTime reason)

/-- Modelled from the spec: `get_positions_by_status(statuses)`. -/
def get_positions_by_status (db : List Position) (sts : List Status) : List Position :=
  db.filter (fun p => p.status ∈ sts)

/-- Modelled from the spec: `get_codes_by_status(statuses)`. -/
def get_codes_by_status (db : List Position) (sts : List Status) : List String :=
  (get_positions_by_status db sts).map Position.code

/-- `get_open_positions` (kis_pos_db.py:231-276): all records with status
OPEN. -/
def get_open_positions (db : List Position) : List Position :=
  db.filter (fun p => p.status = Status.OPEN)

/-- Modelled from the spec: `insert_position` (store contract
`insert(position) → id`): append the record under the next free id. -/
def insert_position (db : List Position) (nextId : Nat) (p : Position) :
    List Position × Nat :=
  (db ++ [{ p with id := nextId }], nextId)

/-- First record with the given id (the store's primary-key lookup, used to
state what a pass did to one position). -/
def findById (db : List Position) (i : Nat) : Option Position :=
  db.find? (fun p => p.id = i)

/-- The ids of the stored records are pairwise distinct (a primary-key
fact of the SQLite store). -/
def IdsNodup (db : List Position) : Prop :=
  (db.map Position.id).Nodup

/-! ### Per-position effects and passes

Each reconciliation/exit pass iterates over a status-filtered query result
and mutates only the record of the position being processed (every store
write in `kis_trading.py` is `update_position_fields(pos.id, ...)` or
`close_position(pos.id, ...)`).  A pass is therefore a fold of
"apply this position's effect at this position's id" steps; `Eff` is the
shape of one step's store effect. -/

/-- One iteration's store effect: nothing, a partial field update, or a
close. -/
inductive Eff where
  | skip
  | fields (f : Fields)
  | close (px tm : ℚ) (r : String)
deriving DecidableEq

/-- Apply an effect to one record. -/
def Eff.apply : Eff → Position → Position
  | Eff.skip, p => p
  | Eff.fields f, p => applyFields f p
  | Eff.close px tm r, p => closeWith px tm r p

/-- An order submitted to the broker. -/
inductive Order where
  | buyLimit (code : String) (qty : Int) (price : ℚ)
  | sellLimit (code : String) (qty : Int) (price : Int)
  | sellMarket (code : String) (qty : Int)
  | buyMarket (code : String) (qty : Int)
deriving DecidableEq

/-- Run a pass: fold the per-position effects over the store. -/
def runPass (eff : Position → Eff) (db : List Position) (l : List Position) :
    List Position :=
  l.foldl (fun d q => mapAt d q.id (Eff.apply (eff q))) db

/-- Run a pass that also submits orders: fold the per-position effects and
collect the order log. -/
def runPassOrd (eff : Position → Eff × List Order) (db : List Position)
    (l : List Position) : List Position × List Order :=
  l.foldl (fun acc q => (mapAt acc.1 q.id (Eff.apply (eff q).1), acc.2 ++ (eff q).2))
    (db, [])

/-! ### Broker holdings snapshot (`kis_functions.py`) -/

/-- One row of the raw balance response's `output1` (the fields
`AccountService.get_positions` reads; numeric strings already parsed, the
comma-stripping `_to_int`/`_to_float` being pure parsing). -/
structure RawHolding where
  pdno : String
  prdt_name : String
  hldg_qty : Int
  pchs_avg_pric : ℚ
deriving DecidableEq

/-- One entry of the parsed holdings list: `AccountService.get_positions`
(kis_functions.py:316-392) keeps `code`, `qty` and `avg_price` (plus
display fields no claim touches). -/
structure BrokerHolding where
  code : String
  qty : Int
  avg_price : ℚ
deriving DecidableEq

/-- `AccountService.get_positions`: keep rows with positive quantity,
carrying the code, quantity and average purchase price. -/
def get_positions (raw : List RawHolding) : List BrokerHolding :=
  (raw.filter (fun r => 0 < r.hldg_qty)).map
    (fun r => { code := r.pdno, qty := r.hldg_qty, avg_price := r.pchs_avg_pric })

/-- `AccountService.get_positions_map`: the dict `{code: entry}`; a later
duplicate code overwrites an earlier one, so lookup finds the last entry. -/
def get_positions_map (raw : List RawHolding) : List BrokerHolding :=
  get_positions raw

/-- Dict lookup in the holdings map (last binding wins, as in the Python
dict comprehension). -/
def mapFind (m : List BrokerHolding) (code : String) : Option BrokerHolding :=
  m.reverse.find? (fun h => h.code = code)

/-! ### 1) Entry admission: `open_new_positions_from_signals`
(kis_trading.py:287-393) -/

/-- One candidate signal, as produced by `load_signals_from_csv` /
`adjust_signals_based_on_trends`.  `valid_until` is the CSV-supplied expiry
(`none` for a blank cell); `fallback_valid_until` is the value
`compute_valid_until_fallback(now, parse_horizon_days(horizon))` would
produce (`none` when the horizon is absent or unparseable) — the calendar
arithmetic itself is not decided by any claim and is carried as data. -/
structure Signal where
  code : String
  name : String
  side : String
  qty : Int
  entry : ℚ
  tp : Option ℚ
  sl : Option ℚ
  valid_until : Option ℚ
  fallback_valid_until : Option ℚ
deriving DecidableEq

/-- The admission state threaded through one batch: the store, the next
free id, the remaining optimistic cash budget, and the order log. -/
structure AdmState where
  db : List Position
  nextId : Nat
  remaining : ℚ
  orders : List Order
deriving DecidableEq

/-- One loop iteration of `open_new_positions_from_signals`
(kis_trading.py:316-393).  `held` is the broker holdings map's code set
(queried once before the loop), `blocked` the store's
OPEN/EXPIRED/PENDING/CLOSING codes (also queried once before the loop and
never refreshed inside it).  Note kis_trading.py:352-353: the
`align_price_to_tick` call is commented out, so the limit buy goes out at
the raw requested entry price. -/
def admit_step (buyL : String → Int → ℚ → PyResult Resp) (held blocked : List String)
    (now : ℚ) (st : AdmState) (sig : Signal) : AdmState :=
  let side := pyUpper (if sig.side = "" then "BUY" else sig.side)
  if side ≠ "BUY" then st
  else if sig.code ∈ held then st
  else if sig.code ∈ blocked then st
  else
    let est_cost := sig.entry * (sig.qty : ℚ)
    if st.remaining < est_cost then st
    else
      let vu := match sig.valid_until with
        | some v => some v
        | none => sig.fallback_valid_until
      let price := sig.entry
      let st1 : AdmState := { st with orders := st.orders ++ [Order.buyLimit sig.code sig.qty price] }
      match buyL sig.code sig.qty price with
      | PyResult.exn => st1
      | PyResult.ok resp =>
        if ¬ is_kis_order_ok resp then st1
        else
          let pos : Position :=
            { id := 0
              code := sig.code
              name := sig.name
              side := side
              qty := sig.qty
              entry := sig.entry
              tp := sig.tp
              sl := sig.sl
              open_time := now
              close_time := none
              status := Status.PENDING
              exit_price := none
              exit_reason := none
              valid_until := vu
              gross_pnl := none
              pnl_pct := none
              holding_days_real := none
              note := build_note_with_order_id "from daily CSV signal" resp }
          let ins := insert_position st1.db st1.nextId pos
          { db := ins.1
            nextId := st1.nextId + 1
            remaining := st1.remaining - est_cost
            orders := st1.orders }

/-- `open_new_positions_from_signals`: query cash and holdings, query the
blocked codes once, then admit the candidates in order. -/
def open_new_positions_from_signals (buyL : String → Int → ℚ → PyResult Resp)
    (cash : ℚ) (held : List String) (db0 : List Position) (nextId : Nat)
    (now : ℚ) (signals : List Signal) : AdmState :=
  let blocked := get_codes_by_status db0
    [Status.OPEN, Status.EXPIRED, Status.PENDING, Status.CLOSING]
  signals.foldl (admit_step buyL held blocked now)
    { db := db0, nextId := nextId, remaining := cash, orders := [] }

/-! ### 2) Fill confirmation: `sync_pending_to_open`
(kis_trading.py:400-440) -/

/-- One iteration of the `sync_pending_to_open` loop: a PENDING position
whose code is in the holdings map becomes OPEN with quantity and entry
overwritten by the broker-reported values.  (The Python key-probing loops
resolve to the `"qty"` and `"avg_price"` keys, which every entry built by
`AccountService.get_positions` carries as parsed numbers.) -/
def sync_eff (m : List BrokerHolding) (q : Position) : Eff :=
  match mapFind m q.code with
  | none => Eff.skip
  | some info =>
    Eff.fields { status := some Status.OPEN, qty := some info.qty, entry := some info.avg_price }

/-- `sync_pending_to_open`: on a holdings-query failure return with no
change; otherwise run the per-PENDING effects. -/
def sync_pending_to_open (posMap : PyResult (List BrokerHolding))
    (db : List Position) : List Position :=
  match posMap with
  | PyResult.exn => db
  | PyResult.ok m => runPass (sync_eff m) db (get_positions_by_status db [Status.PENDING])

/-! ### 3) Expiry of stale PENDING orders: `expire_pending_orders`
(kis_trading.py:447-493) -/

/-- The cancellation capabilities of the broker gateway object:
`hasattr(kis.order, "cancel")` / `hasattr(kis.order, "cancel_order")` and
the calls themselves.  (The repository's own `OrderService` in
`kis_functions.py` defines neither method, so for the shipped gateway both
flags are false.) -/
structure CancelCaps where
  hasCancel : Bool
  hasCancelOrder : Bool
  cancel : String → PyResult Resp
  cancel_order : String → PyResult Resp

/-- The `cancelled_ok` computation of `expire_pending_orders`
(kis_trading.py:471-487): try the cancel endpoint when it exists and an
order id was recovered; a raised exception leaves the flag false; with no
endpoint or no recoverable order id the flag is set true ("DB-only expiry
for safety"). -/
def cancelled_ok (caps : CancelCaps) (n : Note) : Bool :=
  match extract_order_id n with
  | some oid =>
    if caps.hasCancel then
      match caps.cancel oid with
      | PyResult.ok r => is_kis_order_ok r
      | PyResult.exn => false
    else if caps.hasCancelOrder then
      match caps.cancel_order oid with
      | PyResult.ok r => is_kis_order_ok r
      | PyResult.exn => false
    else true
  | none => true

/-- One iteration of the `expire_pending_orders` loop: skip when
`valid_until` is absent/unparseable or not yet reached; otherwise attempt
cancellation and, only if `cancelled_ok`, set CANCELLED and mark the
note. -/
def expire_eff (caps : CancelCaps) (now : ℚ) (q : Position) : Eff :=
  match q.valid_until with
  | none => Eff.skip
  | some v =>
    if now < v then Eff.skip
    else if cancelled_ok caps q.note then
      Eff.fields { status := some Status.CANCELLED, note := some (note_mark_expired q.note) }
    else Eff.skip

/-- `expire_pending_orders`: run the per-PENDING effects. -/
def expire_pending_orders (caps : CancelCaps) (now : ℚ) (db : List Position) :
    List Position :=
  runPass (expire_eff caps now) db (get_positions_by_status db [Status.PENDING])

/-! ### 4) Intraday exit monitor: `process_open_positions`
(kis_trading.py:503-602) -/

/-- One iteration of the `process_open_positions` loop
(kis_trading.py:526-602).  `quote` is the parsed current price
(`stck_prpr`) of `kis.market.get_quote` (an exception models both a raised
call and a parse failure); `heldCodes` the broker holdings map's codes (the
safety check before selling, empty when the holdings query raised);
`do_order` mirrors the parameter.  The per-tick in-flight set add/discard
is a no-op for a single pass over distinct ids and is not modelled.
Note kis_trading.py:587: with `do_order=False` a triggered position is
closed in the store without any order being submitted. -/
def process_eff (quote : String → PyResult ℚ) (sellM buyM : String → Int → PyResult Resp)
    (heldCodes : List String) (do_order : Bool) (now : ℚ) (q : Position) :
    Eff × List Order :=
  match quote q.code with
  | PyResult.exn => (Eff.skip, [])
  | PyResult.ok cur =>
    if cur ≤ 0 then (Eff.skip, [])
    else
      match exit_reason_for q cur with
      | none =>
        match q.valid_until with
        | some v =>
          if v ≤ now then (Eff.fields { status := some Status.EXPIRED }, [])
          else (Eff.skip, [])
        | none => (Eff.skip, [])
      | some reason =>
        if do_order ∧ q.code ∉ heldCodes then (Eff.skip, [])
        else if do_order then
          let isBuy := pyUpper q.side = "BUY"
          let ord := if isBuy then Order.sellMarket q.code q.qty else Order.buyMarket q.code q.qty
          let resp := if isBuy then sellM q.code q.qty else buyM q.code q.qty
          match resp with
          | PyResult.exn => (Eff.skip, [ord])
          | PyResult.ok r =>
            if is_kis_order_ok r then (Eff.close cur now reason, [ord])
            else (Eff.skip, [ord])
        else (Eff.close cur now reason, [])

/-- `process_open_positions`: run the per-OPEN effects, collecting orders. -/
def process_open_positions (quote : String → PyResult ℚ)
    (sellM buyM : String → Int → PyResult Resp) (heldCodes : List String)
    (do_order : Bool) (now : ℚ) (db : List Position) : List Position × List Order :=
  runPassOrd (process_eff quote sellM buyM heldCodes do_order now) db
    (get_open_positions db)

/-! ### 5) Forced closure window: `force_close_positions_1515_1530`
(kis_trading.py:646-749) -/

/-- The internal hard deadline 15:29:30 as seconds of day
(15·3600 + 29·60 + 30). -/
def hard_deadline : ℚ := 55770

/-- The market deadline 15:29:50 as seconds of day
(15·3600 + 29·60 + 50). -/
def market_deadline : ℚ := 55790

/-- What kind of order the forced-closure iteration decides to submit. -/
inductive ForceIntent where
  | market
  | limit (px : Int)
deriving DecidableEq

/-- The pricing decision of one forced-closure iteration
(kis_trading.py:693-737), as a function of the time of day `t`, the
position and the best bid: at/after the market deadline an unconditional
market sell; otherwise hold on a missing or non-positive bid; otherwise
limit-sell at the bid, except that before the hard deadline a bid outside
the band is a hold, and from the hard deadline on a bid below the band's
lower bound is clamped up to that bound.  The limit price is tick-aligned
upward (SELL). -/
def force_decision (hard market t : ℚ) (pos : Position) (best_bid : Option ℚ) :
    Option ForceIntent :=
  if market ≤ t then some ForceIntent.market
  else
    match best_bid with
    | none => none
    | some b =>
      if b ≤ 0 then none
      else
        match calc_force_band pos.entry pos.tp pos.sl with
        | some (lo, hi) =>
          if t < hard then
            if lo ≤ b ∧ b ≤ hi then
              some (ForceIntent.limit (align_price_to_tick b "SELL"))
            else none
          else
            let px := if b < lo then lo else b
            some (ForceIntent.limit (align_price_to_tick px "SELL"))
        | none => some (ForceIntent.limit (align_price_to_tick b "SELL"))

/-- One iteration of the forced-closure loop (kis_trading.py:680-749):
skip non-BUY, non-positive-quantity or not-held positions; otherwise fetch
the best bid, decide, submit, and close on a confirmed-successful ack —
with exit price `float(best_bid or 0.0)` for the market path (0 when the
bid was unavailable) and `float(best_bid)` for the limit path.  When the
gateway has no `sell_limit` (`sellLimitAvail = false`) the limit decision
is submitted as a market sell instead.  The in-flight guard is a no-op for
a single pass over distinct ids and is not modelled. -/
def force_eff (hard market t now : ℚ) (heldCodes : List String)
    (bestBid : String → Option ℚ) (sellLimitAvail : Bool)
    (sellM : String → Int → PyResult Resp) (sellL : String → Int → Int → PyResult Resp)
    (q : Position) : Eff × List Order :=
  if pyUpper q.side ≠ "BUY" then (Eff.skip, [])
  else if q.qty ≤ 0 then (Eff.skip, [])
  else if q.code ∉ heldCodes then (Eff.skip, [])
  else
    let bb := bestBid q.code
    match force_decision hard market t q bb with
    | none => (Eff.skip, [])
    | some ForceIntent.market =>
      match sellM q.code q.qty with
      | PyResult.exn => (Eff.skip, [Order.sellMarket q.code q.qty])
      | PyResult.ok r =>
        if is_kis_order_ok r then
          (Eff.close (bb.getD 0) now "FORCE_MKT", [Order.sellMarket q.code q.qty])
        else (Eff.skip, [Order.sellMarket q.code q.qty])
    | some (ForceIntent.limit px) =>
      let ord := if sellLimitAvail then Order.sellLimit q.code q.qty px
        else Order.sellMarket q.code q.qty
      let resp := if sellLimitAvail then sellL q.code q.qty px else sellM q.code q.qty
      match resp with
      | PyResult.exn => (Eff.skip, [ord])
      | PyResult.ok r =>
        if is_kis_order_ok r then (Eff.close (bb.getD 0) now "FORCE_LMT", [ord])
        else (Eff.skip, [ord])

/-- Sort rank of the forced-closure target ordering: EXPIRED first. -/
def forceRank (p : Position) : Nat :=
  if p.status = Status.EXPIRED then 0 else 1

/-- The `positions.sort(key=(rank, open_time))` comparison (Python tuple
order; `≤` so that Mathlib's insertion sort is stable, like Python's
sort). -/
def forceLe (a b : Position) : Bool :=
  decide (forceRank a < forceRank b ∨ (forceRank a = forceRank b ∧ a.open_time ≤ b.open_time))

/-- `force_close_positions_1515_1530`: query OPEN/EXPIRED targets, sort
EXPIRED first (then by open time), and run the per-position effects. -/
def force_close_positions_1515_1530 (hard market t now : ℚ)
    (heldCodes : List String) (bestBid : String → Option ℚ) (sellLimitAvail : Bool)
    (sellM : String → Int → PyResult Resp) (sellL : String → Int → Int → PyResult Resp)
    (db : List Position) : List Position × List Order :=
  let targets := (get_positions_by_status db [Status.OPEN, Status.EXPIRED]).insertionSort
    (fun a b => forceLe a b = true)
  runPassOrd (force_eff hard market t now heldCodes bestBid sellLimitAvail sellM sellL)
    db targets

/-! ### Module-level imports (`kis_trading.py` ← `kis_pos_db.py`)

`from kis_pos_db import ...` (kis_trading.py:47-57) succeeds only if every
imported name is an attribute of the `kis_pos_db` module.  The attribute
set below lists every top-level binding of `kis_pos_db.py` (its own
imports included). -/

/-- The names `kis_trading.py` imports from `kis_pos_db`
(kis_trading.py:47-57). -/
def kis_trading_pos_db_imports : List String :=
  ["DB_PATH", "Position", "init_db", "insert_position", "get_open_positions",
   "close_position", "get_positions_by_status", "get_codes_by_status",
   "update_position_fields"]

/-- Every top-level binding of `kis_pos_db.py` (module attributes visible
to a `from`-import): its imports (`sqlite3`, `dataclass`, `datetime`,
typing names) and its own definitions. -/
def kis_pos_db_module_attrs : List String :=
  ["sqlite3", "dataclass", "datetime", "Optional", "List", "Dict", "Any",
   "DB_PATH", "Position", "get_connection", "init_db",
   "add_open_position_from_csv_row", "get_open_positions", "get_open_codes",
   "close_positions_for_code", "mark_missing_codes_closed"]

/-- Python `from M import a, b, ...` semantics: the import succeeds iff
every requested name is a module attribute (otherwise `ImportError` is
raised during the module load, before any function of the importing module
can run). -/
def from_import_ok (attrs requested : List String) : Bool :=
  requested.all (fun n => attrs.contains n)

/-- The requested names missing from the module. -/
def missing_import_names (attrs requested : List String) : List String :=
  requested.filter (fun n => ¬ attrs.contains n)

/-- Whether the `kis_trading` module loads: its `from kis_pos_db import`
must succeed. -/
def kis_trading_loads : Bool :=
  from_import_ok kis_pos_db_module_attrs kis_trading_pos_db_imports

/-- Whether the `kis_scheduler` module loads: it imports from
`kis_trading` (kis_scheduler.py:26-36), which must itself load, and from
`kis_pos_db` the names `DB_PATH` and `init_db` (kis_scheduler.py:37). -/
def kis_scheduler_loads : Bool :=
  kis_trading_loads && from_import_ok kis_pos_db_module_attrs ["DB_PATH", "init_db"]

/-! ### Shared machinery: what one pass does to one record -/

lemma Eff.apply_id (e : Eff) (p : Position) : (Eff.apply e p).id = p.id := by
  cases e <;> rfl

lemma findById_eq_some_id {db : List Position} {j : Nat} {p : Position}
    (h : findById db j = some p) : p.id = j := by
  have := List.find?_some h
  simpa using this

lemma findById_mapAt (db : List Position) (i : Nat) (g : Position → Position) (j : Nat)
    (hg : ∀ p, (g p).id = p.id) :
    findById (mapAt db i g) j =
      Option.map (fun p => if p.id = i then g p else p) (findById db j) := by
  induction db with
  | nil => rfl
  | cons a l ih =>
    have hid : (if a.id = i then g a else a).id = a.id := by
      split
      · exact hg a
      · rfl
    by_cases haj : a.id = j
    · unfold findById mapAt
      rw [List.map_cons, List.find?_cons_of_pos, List.find?_cons_of_pos]
      · simp
      · simpa using haj
      · simpa [hid] using haj
    · unfold findById mapAt
      rw [List.map_cons, List.find?_cons_of_neg, List.find?_cons_of_neg]
      · exact ih
      · simpa using haj
      · simpa [hid] using haj

lemma findById_of_mem_nodup {db : List Position} {p : Position}
    (hnd : IdsNodup db) (hp : p ∈ db) : findById db p.id = some p := by
  induction db with
  | nil => cases hp
  | cons a l ih =>
    unfold IdsNodup at hnd
    rw [List.map_cons, List.nodup_cons] at hnd
    rcases List.mem_cons.mp hp with rfl | hp2
    · unfold findById
      exact List.find?_cons_of_pos _ (by simp)
    · have hne : a.id ≠ p.id := by
        intro he
        exact hnd.1 (he ▸ List.mem_map_of_mem Position.id hp2)
      unfold findById
      rw [List.find?_cons_of_neg]
      · exact ih hnd.2 hp2
      · simpa using hne

lemma runPass_cons (eff : Position → Eff) (db : List Position) (q : Position)
    (l : List Position) :
    runPass eff db (q :: l) = runPass eff (mapAt db q.id (Eff.apply (eff q))) l := by
  unfold runPass
  rw [List.foldl_cons]

lemma runPass_append (eff : Position → Eff) (db : List Position)
    (l1 l2 : List Position) :
    runPass eff db (l1 ++ l2) = runPass eff (runPass eff db l1) l2 := by
  unfold runPass
  rw [List.foldl_append]

lemma findById_runPass_preserve (eff : Position → Eff) (l : List Position)
    (db : List Position) (j : Nat) (h : ∀ q ∈ l, q.id ≠ j) :
    findById (runPass eff db l) j = findById db j := by
  induction l generalizing db with
  | nil => rfl
  | cons q l ih =>
    rw [runPass_cons]
    rw [ih _ (fun r hr => h r (List.mem_cons_of_mem _ hr))]
    rw [findById_mapAt _ _ _ _ (fun r => Eff.apply_id _ r)]
    cases hf : findById db j with
    | none => rfl
    | some p =>
      have hp : p.id = j := findById_eq_some_id hf
      have hq : q.id ≠ j := h q (List.mem_cons_self q l)
      have hne : ¬ (p.id = q.id) := by
        rw [hp]
        exact fun he => hq he.symm
      simp [hne]

lemma findById_runPass_append (eff : Position → Eff) (l1 l2 : List Position)
    (p : Position) (db : List Position)
    (h1 : ∀ q ∈ l1, q.id ≠ p.id) (h2 : ∀ q ∈ l2, q.id ≠ p.id)
    (hdb : findById db p.id = some p) :
    findById (runPass eff db (l1 ++ p :: l2)) p.id = some (Eff.apply (eff p) p) := by
  rw [runPass_append, runPass_cons]
  rw [findById_runPass_preserve _ _ _ _ h2]
  rw [findById_mapAt _ _ _ _ (fun r => Eff.apply_id _ r)]
  rw [findById_runPass_preserve _ _ _ _ h1, hdb]
  simp

lemma findById_runPass_of_mem (eff : Position → Eff) (db l : List Position)
    (p : Position) (hndl : (l.map Position.id).Nodup) (hpl : p ∈ l)
    (hdb : findById db p.id = some p) :
    findById (runPass eff db l) p.id = some (Eff.apply (eff p) p) := by
  obtain ⟨l1, l2, rfl⟩ := List.append_of_mem hpl
  rw [List.map_append, List.map_cons] at hndl
  have hd := List.nodup_append.mp hndl
  have h1 : ∀ q ∈ l1, q.id ≠ p.id := by
    intro q hq he
    exact hd.2.2 (List.mem_map_of_mem Position.id hq) (by simp [he])
  have h2 : ∀ q ∈ l2, q.id ≠ p.id := by
    intro q hq he
    have : p.id ∉ l2.map Position.id := by
      have := (List.nodup_cons.mp hd.2.1).1
      simpa using this
    exact this (he ▸ List.mem_map_of_mem Position.id hq)
  exact findById_runPass_append eff l1 l2 p db h1 h2 hdb

lemma runPassOrd_fst (eff : Position → Eff × List Order) (db : List Position)
    (l : List Position) :
    (runPassOrd eff db l).1 = runPass (fun q => (eff q).1) db l := by
  suffices h : ∀ (os : List Order) (d : List Position),
      (l.foldl (fun acc q => (mapAt acc.1 q.id (Eff.apply (eff q).1), acc.2 ++ (eff q).2))
        (d, os)).1 = runPass (fun q => (eff q).1) d l by
    exact h [] db
  induction l with
  | nil => intro os d; rfl
  | cons q l ih =>
    intro os d
    unfold runPass
    rw [List.foldl_cons, List.foldl_cons]
    exact ih _ _

lemma runPassOrd_snd (eff : Position → Eff × List Order) (db : List Position)
    (l : List Position) :
    (runPassOrd eff db l).2 = (l.map (fun q => (eff q).2)).flatten := by
  suffices h : ∀ (os : List Order) (d : List Position),
      (l.foldl (fun acc q => (mapAt acc.1 q.id (Eff.apply (eff q).1), acc.2 ++ (eff q).2))
        (d, os)).2 = os ++ (l.map (fun q => (eff q).2)).flatten by
    simpa using h [] db
  induction l with
  | nil => intro os d; simp
  | cons q l ih =>
    intro os d
    rw [List.foldl_cons]
    rw [ih]
    simp

lemma ids_nodup_filter (db : List Position) (pred : Position → Bool)
    (h : IdsNodup db) : ((db.filter pred).map Position.id).Nodup :=
  List.Nodup.sublist (List.Sublist.map Position.id (List.filter_sublist db)) h

/-! ### Claim C5 -/

/-- Claim C5, counterexample: the claim says aligning 100040 for a sell
yields 100100, the grid step at that price being 100 units; on the code
the price bracket of 100040 is the `< 500000` one, so the step is 500, not
100, and the sell alignment is 100500, not 100100. -/
theorem C5_counterexample :
    align_price_to_tick 100040 "SELL" ≠ 100100 ∧ krx_tick_size 100040 ≠ 100 := by
  constructor
  · intro h
    exact absurd ((rfl : align_price_to_tick 100040 "SELL" = 100500) ▸ h) (by decide)
  · intro h
    exact absurd ((rfl : krx_tick_size 100040 = 500) ▸ h) (by decide)

/-- Claim C5 as amended: the tick size at price 100040 is 500 (the
100-unit bracket covers prices below 100000); aligning 100040 for a buy
yields 100000, and for a sell 100500. -/
theorem C5_theorem :
    krx_tick_size 100040 = 500 ∧ align_price_to_tick 100040 "BUY" = 100000 ∧
      align_price_to_tick 100040 "SELL" = 100500 := by
  refine ⟨rfl, rfl, rfl⟩

/-! ### Claim C7 -/

/-- Claim C7 (confirmed): for every BUY position whose take-profit is set
and reached by the current quote, the exit monitor's trigger evaluation
yields TP and never SL — the take-profit comparison comes first and the
stop-loss one sits behind an `elif`, so at most one trigger fires per
tick. -/
theorem C7_theorem (pos : Position) (cur t : ℚ)
    (hside : pyUpper pos.side = "BUY") (htp : pos.tp = some t) (ht : t ≤ cur) :
    exit_reason_for pos cur = some "TP" ∧ exit_reason_for pos cur ≠ some "SL" := by
  have h : exit_reason_for pos cur = some "TP" := by
    unfold exit_reason_for
    rw [hside, htp]
    simp [ht]
  refine ⟨h, ?_⟩
  rw [h]
  intro hcontra
  exact absurd (Option.some.inj hcontra) (by decide)

/-- Claim C7, witness: entry 50000, tp 53000, sl 48000 and a quote of
53050 trigger TP and never SL. -/
theorem C7_witness :
    exit_reason_for
      { id := 1, code := "005930", name := "", side := "BUY", qty := 10,
        entry := 50000, tp := some 53000, sl := some 48000, open_time := 0,
        close_time := none, status := Status.OPEN, exit_price := none,
        exit_reason := none, valid_until := none, gross_pnl := none,
        pnl_pct := none, holding_days_real := none, note := { base := "" } }
      53050 = some "TP" ∧
    exit_reason_for
      { id := 1, code := "005930", name := "", side := "BUY", qty := 10,
        entry := 50000, tp := some 53000, sl := some 48000, open_time := 0,
        close_time := none, status := Status.OPEN, exit_price := none,
        exit_reason := none, valid_until := none, gross_pnl := none,
        pnl_pct := none, holding_days_real := none, note := { base := "" } }
      53050 ≠ some "SL" :=
  C7_theorem _ 53050 53000 (by decide) rfl (by decide)

/-! ### Claim C9 -/

/-- Claim C9 (confirmed): `kis_trading.py` imports `insert_position`,
`close_position`, `get_positions_by_status`, `get_codes_by_status` and
`update_position_fields` from `kis_pos_db`, but `kis_pos_db.py` defines
none of these five names, so the `from`-import — and hence every load of
the trading engine and of the scheduler that imports it — fails with an
`ImportError` before any function can run. -/
theorem C9_theorem :
    missing_import_names kis_pos_db_module_attrs kis_trading_pos_db_imports =
      ["insert_position", "close_position", "get_positions_by_status",
       "get_codes_by_status", "update_position_fields"] ∧
    kis_trading_loads = false ∧ kis_scheduler_loads = false := by
  refine ⟨by decide, by decide, by decide⟩

/-! ### Claim C8 -/

/-- Claim C8 (confirmed): every PENDING position whose code appears in the
broker holdings snapshot (as built by `AccountService.get_positions_map`)
is transitioned to OPEN by one `sync_pending_to_open` pass, with its
quantity and entry price overwritten by the broker-reported filled
quantity and average price — the originally requested values are not
retained. -/
theorem C8_theorem (db : List Position) (raw : List RawHolding) (p : Position)
    (h : BrokerHolding) (hnd : IdsNodup db) (hp : p ∈ db)
    (hst : p.status = Status.PENDING)
    (hm : mapFind (get_positions_map raw) p.code = some h) :
    findById (sync_pending_to_open (PyResult.ok (get_positions_map raw)) db) p.id =
      some { p with status := Status.OPEN, qty := h.qty, entry := h.avg_price } := by
  unfold sync_pending_to_open
  have hpl : p ∈ get_positions_by_status db [Status.PENDING] := by
    unfold get_positions_by_status
    exact List.mem_filter.mpr ⟨hp, by simp [hst]⟩
  have hndl : ((get_positions_by_status db [Status.PENDING]).map Position.id).Nodup := by
    unfold get_positions_by_status
    exact ids_nodup_filter db _ hnd
  have hrun := findById_runPass_of_mem (sync_eff (get_positions_map raw)) db
    (get_positions_by_status db [Status.PENDING]) p hndl hpl
    (findById_of_mem_nodup hnd hp)
  rw [hrun]
  unfold sync_eff
  rw [hm]
  unfold Eff.apply applyFields
  simp

/-- Claim C8, witness: a PENDING position for code 005930 requested with
qty 10 at 50000, found in a holdings snapshot reporting 7 shares at
average price 49800, becomes OPEN with qty 7 and entry 49800. -/
theorem C8_witness :
    findById
      (sync_pending_to_open
        (PyResult.ok (get_positions_map
          [{ pdno := "005930", prdt_name := "S", hldg_qty := 7, pchs_avg_pric := 49800 }]))
        [{ id := 1, code := "005930", name := "S", side := "BUY", qty := 10,
           entry := 50000, tp := none, sl := none, open_time := 0,
           close_time := none, status := Status.PENDING, exit_price := none,
           exit_reason := none, valid_until := none, gross_pnl := none,
           pnl_pct := none, holding_days_real := none, note := { base := "" } }])
      1 =
    some { id := 1, code := "005930", name := "S", side := "BUY", qty := 7,
           entry := 49800, tp := none, sl := none, open_time := 0,
           close_time := none, status := Status.OPEN, exit_price := none,
           exit_reason := none, valid_until := none, gross_pnl := none,
           pnl_pct := none, holding_days_real := none, note := { base := "" } } :=
  C8_theorem
    [{ id := 1, code := "005930", name := "S", side := "BUY", qty := 10,
       entry := 50000, tp := none, sl := none, open_time := 0,
       close_time := none, status := Status.PENDING, exit_price := none,
       exit_reason := none, valid_until := none, gross_pnl := none,
       pnl_pct := none, holding_days_real := none, note := { base := "" } }]
    [{ pdno := "005930", prdt_name := "S", hldg_qty := 7, pchs_avg_pric := 49800 }]
    { id := 1, code := "005930", name := "S", side := "BUY", qty := 10,
      entry := 50000, tp := none, sl := none, open_time := 0,
      close_time := none, status := Status.PENDING, exit_price := none,
      exit_reason := none, valid_until := none, gross_pnl := none,
      pnl_pct := none, holding_days_real := none, note := { base := "" } }
    { code := "005930", qty := 7, avg_price := 49800 }
    (by unfold IdsNodup; decide) (by decide) rfl rfl

/-! ### Claim C2 -/

/-- Claim C2, counterexample: a PENDING position whose `valid_until` has
passed, carrying a recoverable order reference, against a gateway whose
`cancel` endpoint exists and returns a failure ack — the claim says one
`expire_pending_orders` pass sets its status to CANCELLED regardless of
the cancellation outcome, but the pass leaves the store unchanged and the
position still PENDING. -/
theorem C2_counterexample :
    expire_pending_orders
      { hasCancel := true, hasCancelOrder := false,
        cancel := fun _ => PyResult.ok (Resp.dict "1" "ERROR" none),
        cancel_order := fun _ => PyResult.ok Resp.nonDict }
      1
      [{ id := 1, code := "005930", name := "S", side := "BUY", qty := 10,
         entry := 50000, tp := none, sl := none, open_time := 0,
         close_time := none, status := Status.PENDING, exit_price := none,
         exit_reason := none, valid_until := some 0, gross_pnl := none,
         pnl_pct := none, holding_days_real := none,
         note := { base := "from daily CSV signal", order_id := some "OD1" } }] =
      [{ id := 1, code := "005930", name := "S", side := "BUY", qty := 10,
         entry := 50000, tp := none, sl := none, open_time := 0,
         close_time := none, status := Status.PENDING, exit_price := none,
         exit_reason := none, valid_until := some 0, gross_pnl := none,
         pnl_pct := none, holding_days_real := none,
         note := { base := "from daily CSV signal", order_id := some "OD1" } }] ∧
    ((0 : ℚ) ≤ 1 ∧ Status.PENDING ≠ Status.CANCELLED) := by
  refine ⟨rfl, by decide, by decide⟩

/-- Claim C2 as amended: one `expire_pending_orders` pass marks an expired
PENDING position CANCELLED exactly when `cancelled_ok` holds — the cancel
ack is a recognized success, or no cancel capability or recoverable order
reference exists (the case with the repository's own `OrderService`, which
defines no cancel method); when the cancel call returns a failure ack or
raises, the position is left unchanged (still PENDING), to be retried on
the next pass. -/
theorem C2_theorem (caps : CancelCaps) (now v : ℚ) (db : List Position)
    (p : Position) (hnd : IdsNodup db) (hp : p ∈ db)
    (hst : p.status = Status.PENDING) (hvu : p.valid_until = some v)
    (hv : v ≤ now) :
    findById (expire_pending_orders caps now db) p.id =
      some (if cancelled_ok caps p.note then
        applyFields
          { status := some Status.CANCELLED,
            note := some (note_mark_expired p.note) } p
      else p) := by
  unfold expire_pending_orders
  have hpl : p ∈ get_positions_by_status db [Status.PENDING] := by
    unfold get_positions_by_status
    exact List.mem_filter.mpr ⟨hp, by simp [hst]⟩
  have hndl : ((get_positions_by_status db [Status.PENDING]).map Position.id).Nodup := by
    unfold get_positions_by_status
    exact ids_nodup_filter db _ hnd
  rw [findById_runPass_of_mem (expire_eff caps now) db
    (get_positions_by_status db [Status.PENDING]) p hndl hpl
    (findById_of_mem_nodup hnd hp)]
  unfold expire_eff
  rw [hvu]
  dsimp only
  rw [if_neg (not_lt.mpr hv)]
  by_cases hc : cancelled_ok caps p.note = true
  · rw [if_pos hc, if_pos hc]
    rfl
  · rw [if_neg hc, if_neg hc]
    rfl

/-- Claim C2, witness (the shipped-gateway case): with no cancel
capability — as with the repository's `OrderService` — an expired PENDING
position is marked CANCELLED by one pass. -/
theorem C2_witness :
    findById
      (expire_pending_orders
        { hasCancel := false, hasCancelOrder := false,
          cancel := fun _ => PyResult.exn, cancel_order := fun _ => PyResult.exn }
        1
        [{ id := 1, code := "005930", name := "S", side := "BUY", qty := 10,
           entry := 50000, tp := none, sl := none, open_time := 0,
           close_time := none, status := Status.PENDING, exit_price := none,
           exit_reason := none, valid_until := some 0, gross_pnl := none,
           pnl_pct := none, holding_days_real := none,
           note := { base := "from daily CSV signal", order_id := some "OD1" } }])
      1 =
    some (if cancelled_ok
        { hasCancel := false, hasCancelOrder := false,
          cancel := fun _ => PyResult.exn, cancel_order := fun _ => PyResult.exn }
        { base := "from daily CSV signal", order_id := some "OD1" } then
      applyFields
        { status := some Status.CANCELLED,
          note := some (note_mark_expired
            { base := "from daily CSV signal", order_id := some "OD1" }) }
        { id := 1, code := "005930", name := "S", side := "BUY", qty := 10,
          entry := 50000, tp := none, sl := none, open_time := 0,
          close_time := none, status := Status.PENDING, exit_price := none,
          exit_reason := none, valid_until := some 0, gross_pnl := none,
          pnl_pct := none, holding_days_real := none,
          note := { base := "from daily CSV signal", order_id := some "OD1" } }
    else
      { id := 1, code := "005930", name := "S", side := "BUY", qty := 10,
        entry := 50000, tp := none, sl := none, open_time := 0,
        close_time := none, status := Status.PENDING, exit_price := none,
        exit_reason := none, valid_until := some 0, gross_pnl := none,
        pnl_pct := none, holding_days_real := none,
        note := { base := "from daily CSV signal", order_id := some "OD1" } }) :=
  C2_theorem
    { hasCancel := false, hasCancelOrder := false,
      cancel := fun _ => PyResult.exn, cancel_order := fun _ => PyResult.exn }
    1 0
    [{ id := 1, code := "005930", name := "S", side := "BUY", qty := 10,
       entry := 50000, tp := none, sl := none, open_time := 0,
       close_time := none, status := Status.PENDING, exit_price := none,
       exit_reason := none, valid_until := some 0, gross_pnl := none,
       pnl_pct := none, holding_days_real := none,
       note := { base := "from daily CSV signal", order_id := some "OD1" } }]
    { id := 1, code := "005930", name := "S", side := "BUY", qty := 10,
      entry := 50000, tp := none, sl := none, open_time := 0,
      close_time := none, status := Status.PENDING, exit_price := none,
      exit_reason := none, valid_until := some 0, gross_pnl := none,
      pnl_pct := none, holding_days_real := none,
      note := { base := "from daily CSV signal", order_id := some "OD1" } }
    (by unfold IdsNodup; decide) (by decide) rfl rfl (by decide)

/-! ### Claim C3 -/

lemma process_eff_no_order (quote : String → PyResult ℚ)
    (sellM buyM : String → Int → PyResult Resp) (heldCodes : List String)
    (now : ℚ) (q : Position) :
    (process_eff quote sellM buyM heldCodes false now q).2 = [] := by
  unfold process_eff
  cases quote q.code with
  | exn => rfl
  | ok cur =>
    by_cases h1 : cur ≤ 0
    · simp [h1]
    · simp only [if_neg h1]
      cases exit_reason_for q cur with
      | none =>
        cases q.valid_until with
        | none => rfl
        | some v =>
          by_cases h2 : v ≤ now
          · simp [h2]
          · simp [h2]
      | some r => simp

/-- Claim C3, counterexample: the end-of-day pass (`process_open_positions`
with `do_order=False`) on an OPEN position whose take-profit is reached by
the quote submits no order, yet does not leave the stored state unchanged:
it closes the position in the store (status CLOSED) without any order
submission — contradicting "observation only" and "no position transitions
to CLOSED without a confirmed-successful order submission". -/
theorem C3_counterexample :
    ((process_open_positions (fun _ => PyResult.ok 53050)
        (fun _ _ => PyResult.ok Resp.nonDict) (fun _ _ => PyResult.ok Resp.nonDict)
        [] false 0
        [{ id := 1, code := "005930", name := "S", side := "BUY", qty := 10,
           entry := 50000, tp := some 53000, sl := some 48000, open_time := 0,
           close_time := none, status := Status.OPEN, exit_price := none,
           exit_reason := none, valid_until := none, gross_pnl := none,
           pnl_pct := none, holding_days_real := none,
           note := { base := "" } }]).1.map
      (fun p => (p.status, p.exit_reason))) =
      [(Status.CLOSED, some "TP")] ∧
    (process_open_positions (fun _ => PyResult.ok 53050)
        (fun _ _ => PyResult.ok Resp.nonDict) (fun _ _ => PyResult.ok Resp.nonDict)
        [] false 0
        [{ id := 1, code := "005930", name := "S", side := "BUY", qty := 10,
           entry := 50000, tp := some 53000, sl := some 48000, open_time := 0,
           close_time := none, status := Status.OPEN, exit_price := none,
           exit_reason := none, valid_until := none, gross_pnl := none,
           pnl_pct := none, holding_days_real := none,
           note := { base := "" } }]).2 = [] ∧
    Status.CLOSED ≠ Status.OPEN := by
  refine ⟨rfl, rfl, by decide⟩

/-- Claim C3 as amended: the end-of-day pass (`process_open_positions`
with `do_order=False`) submits no orders, but it is not
observation-only: an OPEN position whose quote is available and positive
and whose TP/SL trigger fires is closed in the store at the current quote
(status, exit price, exit reason and realized analytics written) without
any order submission; likewise an elapsed `valid_until` still moves OPEN
to EXPIRED.  Closing without a confirmed-successful order happens exactly
on this `do_order=False` path. -/
theorem C3_theorem :
    (∀ (quote : String → PyResult ℚ) (sellM buyM : String → Int → PyResult Resp)
      (heldCodes : List String) (now : ℚ) (db : List Position),
      (process_open_positions quote sellM buyM heldCodes false now db).2 = []) ∧
    (∀ (quote : String → PyResult ℚ) (sellM buyM : String → Int → PyResult Resp)
      (heldCodes : List String) (now : ℚ) (db : List Position) (p : Position)
      (cur : ℚ) (r : String),
      IdsNodup db → p ∈ db → p.status = Status.OPEN →
      quote p.code = PyResult.ok cur → ¬ cur ≤ 0 →
      exit_reason_for p cur = some r →
      findById (process_open_positions quote sellM buyM heldCodes false now db).1
        p.id = some (closeWith cur now r p)) := by
  constructor
  · intro quote sellM buyM heldCodes now db
    unfold process_open_positions
    rw [runPassOrd_snd]
    have h : ∀ q : Position,
        (process_eff quote sellM buyM heldCodes false now q).2 = [] :=
      process_eff_no_order quote sellM buyM heldCodes now
    simp [h]
  · intro quote sellM buyM heldCodes now db p cur r hnd hp hst hq hcur hr
    unfold process_open_positions
    rw [runPassOrd_fst]
    have hpl : p ∈ get_open_positions db := by
      unfold get_open_positions
      exact List.mem_filter.mpr ⟨hp, by simp [hst]⟩
    have hndl : ((get_open_positions db).map Position.id).Nodup := by
      unfold get_open_positions
      exact ids_nodup_filter db _ hnd
    rw [findById_runPass_of_mem _ db (get_open_positions db) p hndl hpl
      (findById_of_mem_nodup hnd hp)]
    unfold process_eff
    rw [hq]
    dsimp only
    rw [if_neg hcur, hr]
    dsimp only
    rfl

/-- Claim C3, witness: with `do_order=False`, an OPEN BUY position with
entry 50000, tp 53000 and a quote of 53050 is closed in the store at
53050 with reason TP (and, by the first half, no order is ever
submitted). -/
theorem C3_witness :
    (process_open_positions (fun _ => PyResult.ok 53050)
      (fun _ _ => PyResult.ok Resp.nonDict) (fun _ _ => PyResult.ok Resp.nonDict)
      [] false 7 []).2 = [] ∧
    findById (process_open_positions (fun _ => PyResult.ok 53050)
        (fun _ _ => PyResult.ok Resp.nonDict) (fun _ _ => PyResult.ok Resp.nonDict)
        [] false 7
        [{ id := 1, code := "005930", name := "S", side := "BUY", qty := 10,
           entry := 50000, tp := some 53000, sl := some 48000, open_time := 0,
           close_time := none, status := Status.OPEN, exit_price := none,
           exit_reason := none, valid_until := none, gross_pnl := none,
           pnl_pct := none, holding_days_real := none,
           note := { base := "" } }]).1 1 =
      some (closeWith 53050 7 "TP"
        { id := 1, code := "005930", name := "S", side := "BUY", qty := 10,
          entry := 50000, tp := some 53000, sl := some 48000, open_time := 0,
          close_time := none, status := Status.OPEN, exit_price := none,
          exit_reason := none, valid_until := none, gross_pnl := none,
          pnl_pct := none, holding_days_real := none,
          note := { base := "" } }) :=
  ⟨C3_theorem.1 (fun _ => PyResult.ok 53050)
      (fun _ _ => PyResult.ok Resp.nonDict) (fun _ _ => PyResult.ok Resp.nonDict)
      [] 7 [],
    C3_theorem.2 (fun _ => PyResult.ok 53050)
      (fun _ _ => PyResult.ok Resp.nonDict) (fun _ _ => PyResult.ok Resp.nonDict)
      [] 7
      [{ id := 1, code := "005930", name := "S", side := "BUY", qty := 10,
         entry := 50000, tp := some 53000, sl := some 48000, open_time := 0,
         close_time := none, status := Status.OPEN, exit_price := none,
         exit_reason := none, valid_until := none, gross_pnl := none,
         pnl_pct := none, holding_days_real := none,
         note := { base := "" } }]
      { id := 1, code := "005930", name := "S", side := "BUY", qty := 10,
        entry := 50000, tp := some 53000, sl := some 48000, open_time := 0,
        close_time := none, status := Status.OPEN, exit_price := none,
        exit_reason := none, valid_until := none, gross_pnl := none,
        pnl_pct := none, holding_days_real := none,
        note := { base := "" } }
      53050 "TP"
      (by unfold IdsNodup; decide) (by decide) rfl rfl (by decide) rfl⟩

/-! ### Claim C10 -/

/-- Claim C10 (confirmed): at or after the market deadline the forced
closure engine submits the market sell before validating the best bid
(the bid check sits only on the limit path), so a targeted position whose
best bid is unavailable is still market-sold; on a confirmed-successful
ack it is closed with `exit_price = float(best_bid or 0.0) = 0.0`, and the
realized analytics are computed from that zero price:
`gross_pnl = (0 − entry)·qty` and `pnl_pct = (0 − entry)/entry·100`. -/
theorem C10_theorem (hard market t now : ℚ) (heldCodes : List String)
    (bestBid : String → Option ℚ) (sellLimitAvail : Bool)
    (sellM : String → Int → PyResult Resp) (sellL : String → Int → Int → PyResult Resp)
    (db : List Position) (p : Position) (r : Resp)
    (hnd : IdsNodup db) (hp : p ∈ db)
    (hst : p.status = Status.OPEN ∨ p.status = Status.EXPIRED)
    (hside : pyUpper p.side = "BUY") (hqty : ¬ p.qty ≤ 0)
    (hheld : p.code ∈ heldCodes) (hbb : bestBid p.code = none)
    (ht : market ≤ t) (hresp : sellM p.code p.qty = PyResult.ok r)
    (hok : is_kis_order_ok r = true) :
    findById (force_close_positions_1515_1530 hard market t now heldCodes bestBid
        sellLimitAvail sellM sellL db).1 p.id =
      some (closeWith 0 now "FORCE_MKT" p) ∧
    (closeWith 0 now "FORCE_MKT" p).status = Status.CLOSED ∧
    (closeWith 0 now "FORCE_MKT" p).exit_price = some 0 ∧
    (closeWith 0 now "FORCE_MKT" p).exit_reason = some "FORCE_MKT" ∧
    (closeWith 0 now "FORCE_MKT" p).gross_pnl = some ((0 - p.entry) * (p.qty : ℚ)) ∧
    (closeWith 0 now "FORCE_MKT" p).pnl_pct = some ((0 - p.entry) / p.entry * 100) := by
  have htargets : p ∈ get_positions_by_status db [Status.OPEN, Status.EXPIRED] := by
    unfold get_positions_by_status
    refine List.mem_filter.mpr ⟨hp, ?_⟩
    rcases hst with h | h
    · simp [h]
    · simp [h]
  have hperm := List.perm_insertionSort (fun a b => forceLe a b = true)
    (get_positions_by_status db [Status.OPEN, Status.EXPIRED])
  have hpl : p ∈ (get_positions_by_status db [Status.OPEN, Status.EXPIRED]).insertionSort
      (fun a b => forceLe a b = true) := hperm.mem_iff.mpr htargets
  have hndl : (((get_positions_by_status db [Status.OPEN, Status.EXPIRED]).insertionSort
      (fun a b => forceLe a b = true)).map Position.id).Nodup := by
    refine (List.Perm.nodup_iff (List.Perm.map Position.id hperm)).mpr ?_
    unfold get_positions_by_status
    exact ids_nodup_filter db _ hnd
  have hfind : findById (force_close_positions_1515_1530 hard market t now heldCodes
      bestBid sellLimitAvail sellM sellL db).1 p.id =
      some (Eff.apply (force_eff hard market t now heldCodes bestBid sellLimitAvail
        sellM sellL p).1 p) := by
    unfold force_close_positions_1515_1530
    rw [runPassOrd_fst]
    exact findById_runPass_of_mem _ db _ p hndl hpl (findById_of_mem_nodup hnd hp)
  have heff : (force_eff hard market t now heldCodes bestBid sellLimitAvail
      sellM sellL p).1 = Eff.close 0 now "FORCE_MKT" := by
    unfold force_eff force_decision
    rw [if_neg (by simp [hside]), if_neg hqty, if_neg (by simp [hheld]), hbb]
    dsimp only
    rw [if_pos ht]
    dsimp only
    rw [hresp]
    dsimp only
    rw [if_pos hok]
    rfl
  rw [hfind, heff]
  exact ⟨rfl, rfl, rfl, rfl, rfl, rfl⟩

/-- Claim C10, witness: an OPEN BUY position (entry 50000, qty 10) held at
the broker, best bid unavailable, at the market deadline with a successful
market-sell ack, is closed with exit price 0 and analytics computed from
the zero price. -/
theorem C10_witness :
    findById (force_close_positions_1515_1530 hard_deadline market_deadline 55795 55795
        ["005930"] (fun _ => none) true
        (fun _ _ => PyResult.ok (Resp.dict "0" "" none))
        (fun _ _ _ => PyResult.ok (Resp.dict "0" "" none))
        [{ id := 1, code := "005930", name := "S", side := "BUY", qty := 10,
           entry := 50000, tp := some 53000, sl := some 48000, open_time := 0,
           close_time := none, status := Status.OPEN, exit_price := none,
           exit_reason := none, valid_until := none, gross_pnl := none,
           pnl_pct := none, holding_days_real := none,
           note := { base := "" } }]).1 1 =
      some (closeWith 0 55795 "FORCE_MKT"
        { id := 1, code := "005930", name := "S", side := "BUY", qty := 10,
          entry := 50000, tp := some 53000, sl := some 48000, open_time := 0,
          close_time := none, status := Status.OPEN, exit_price := none,
          exit_reason := none, valid_until := none, gross_pnl := none,
          pnl_pct := none, holding_days_real := none,
          note := { base := "" } }) :=
  (C10_theorem hard_deadline market_deadline 55795 55795 ["005930"]
    (fun _ => none) true
    (fun _ _ => PyResult.ok (Resp.dict "0" "" none))
    (fun _ _ _ => PyResult.ok (Resp.dict "0" "" none))
    [{ id := 1, code := "005930", name := "S", side := "BUY", qty := 10,
       entry := 50000, tp := some 53000, sl := some 48000, open_time := 0,
       close_time := none, status := Status.OPEN, exit_price := none,
       exit_reason := none, valid_until := none, gross_pnl := none,
       pnl_pct := none, holding_days_real := none,
       note := { base := "" } }]
    { id := 1, code := "005930", name := "S", side := "BUY", qty := 10,
      entry := 50000, tp := some 53000, sl := some 48000, open_time := 0,
      close_time := none, status := Status.OPEN, exit_price := none,
      exit_reason := none, valid_until := none, gross_pnl := none,
      pnl_pct := none, holding_days_real := none,
      note := { base := "" } }
    (Resp.dict "0" "" none)
    (by unfold IdsNodup; decide) (by decide) (Or.inl rfl) (by decide) (by decide)
    (by decide) rfl (by decide) rfl (by decide)).1

/-! ### Claim C6 -/

/-- Claim C6 (confirmed): for a position with entry 100, tp 110, sl 90 the
forced-closure band is [95, 105]; with a best bid of 93 the engine decides
no order before the hard deadline (bid outside the band), a limit sell
clamped up to 95 at/after the hard deadline but before the market
deadline, and at/after the market deadline an unconditional market sell
regardless of the bid. -/
theorem C6_theorem (pos : Position) (hentry : pos.entry = 100)
    (htp : pos.tp = some 110) (hsl : pos.sl = some 90) :
    calc_force_band pos.entry pos.tp pos.sl = some (95, 105) ∧
    (∀ t, t < hard_deadline →
      force_decision hard_deadline market_deadline t pos (some 93) = none) ∧
    (∀ t, hard_deadline ≤ t → t < market_deadline →
      force_decision hard_deadline market_deadline t pos (some 93) =
        some (ForceIntent.limit 95)) ∧
    (∀ (t : ℚ) (b : Option ℚ), market_deadline ≤ t →
      force_decision hard_deadline market_deadline t pos b =
        some ForceIntent.market) := by
  have hband : calc_force_band pos.entry pos.tp pos.sl = some (95, 105) := by
    rw [hentry, htp, hsl]
    unfold calc_force_band
    norm_num
  refine ⟨hband, ?_, ?_, ?_⟩
  · intro t htlt
    have hmk : ¬ market_deadline ≤ t :=
      not_le.mpr (lt_trans htlt (by decide))
    unfold force_decision
    rw [if_neg hmk]
    dsimp only
    rw [if_neg (by norm_num : ¬ (93 : ℚ) ≤ 0), hband]
    dsimp only
    rw [if_pos htlt]
    rw [if_neg (by norm_num : ¬ ((95 : ℚ) ≤ 93 ∧ (93 : ℚ) ≤ 105))]
  · intro t ht1 ht2
    unfold force_decision
    rw [if_neg (not_le.mpr ht2)]
    dsimp only
    rw [if_neg (by norm_num : ¬ (93 : ℚ) ≤ 0), hband]
    dsimp only
    rw [if_neg (not_lt.mpr ht1)]
    rw [if_pos (by norm_num : (93 : ℚ) < 95)]
    rfl
  · intro t b hm
    unfold force_decision
    rw [if_pos hm]

/-- Claim C6, witness: the three phases at concrete times of day — 55000s
(before the 15:29:30 hard deadline), 55780s (between the deadlines) and
55790s (the market deadline), entry 100, tp 110, sl 90, best bid 93. -/
theorem C6_witness :
    calc_force_band 100 (some 110) (some 90) = some (95, 105) ∧
    force_decision hard_deadline market_deadline 55000
      { id := 1, code := "005930", name := "S", side := "BUY", qty := 10,
        entry := 100, tp := some 110, sl := some 90, open_time := 0,
        close_time := none, status := Status.EXPIRED, exit_price := none,
        exit_reason := none, valid_until := none, gross_pnl := none,
        pnl_pct := none, holding_days_real := none, note := { base := "" } }
      (some 93) = none ∧
    force_decision hard_deadline market_deadline 55780
      { id := 1, code := "005930", name := "S", side := "BUY", qty := 10,
        entry := 100, tp := some 110, sl := some 90, open_time := 0,
        close_time := none, status := Status.EXPIRED, exit_price := none,
        exit_reason := none, valid_until := none, gross_pnl := none,
        pnl_pct := none, holding_days_real := none, note := { base := "" } }
      (some 93) = some (ForceIntent.limit 95) ∧
    force_decision hard_deadline market_deadline 55790
      { id := 1, code := "005930", name := "S", side := "BUY", qty := 10,
        entry := 100, tp := some 110, sl := some 90, open_time := 0,
        close_time := none, status := Status.EXPIRED, exit_price := none,
        exit_reason := none, valid_until := none, gross_pnl := none,
        pnl_pct := none, holding_days_real := none, note := { base := "" } }
      (some 93) = some ForceIntent.market := by
  have h := C6_theorem
    { id := 1, code := "005930", name := "S", side := "BUY", qty := 10,
      entry := 100, tp := some 110, sl := some 90, open_time := 0,
      close_time := none, status := Status.EXPIRED, exit_price := none,
      exit_reason := none, valid_until := none, gross_pnl := none,
      pnl_pct := none, holding_days_real := none, note := { base := "" } }
    rfl rfl rfl
  exact ⟨h.1, h.2.1 55000 (by decide), h.2.2.1 55780 (by decide) (by decide),
    h.2.2.2 55790 (some 93) (by decide)⟩

/-! ### Claims C1 and C4: the admission loop -/

/-- What one admission iteration does to an accepted candidate: all four
rejection checks pass and the order ack is a recognized success, so the
order goes out at the raw entry price (the tick-align call being commented
out), the cash budget is decremented, and a PENDING record is inserted. -/
lemma admit_step_accept (buyL : String → Int → ℚ → PyResult Resp)
    (held blocked : List String) (now : ℚ) (st : AdmState) (sig : Signal)
    (resp : Resp)
    (hside : pyUpper (if sig.side = "" then "BUY" else sig.side) = "BUY")
    (hheld : sig.code ∉ held) (hblk : sig.code ∉ blocked)
    (hcost : ¬ st.remaining < sig.entry * (sig.qty : ℚ))
    (hresp : buyL sig.code sig.qty sig.entry = PyResult.ok resp)
    (hok : is_kis_order_ok resp = true) :
    admit_step buyL held blocked now st sig =
      { db := st.db ++
          [{ id := st.nextId, code := sig.code, name := sig.name,
             side := "BUY", qty := sig.qty, entry := sig.entry,
             tp := sig.tp, sl := sig.sl, open_time := now, close_time := none,
             status := Status.PENDING, exit_price := none, exit_reason := none,
             valid_until := (match sig.valid_until with
               | some v => some v
               | none => sig.fallback_valid_until),
             gross_pnl := none, pnl_pct := none, holding_days_real := none,
             note := build_note_with_order_id "from daily CSV signal" resp }],
        nextId := st.nextId + 1,
        remaining := st.remaining - sig.entry * (sig.qty : ℚ),
        orders := st.orders ++ [Order.buyLimit sig.code sig.qty sig.entry] } := by
  unfold admit_step
  rw [hside]
  rw [if_neg (by simp)]
  rw [if_neg hheld, if_neg hblk, if_neg hcost]
  dsimp only
  rw [hresp]
  dsimp only
  rw [if_neg (by simp [hok])]
  rfl

/-- Claim C1, counterexample: the claim says two candidates for the same
code in one batch admit exactly the first and reject the second; on the
code the blocked-code set is queried once before the loop and never
refreshed, so against an empty store a batch of two identical candidates
(code 000001, qty 1, entry 100, ample cash, successful acks) admits both,
leaving two PENDING (non-terminal) positions for the same code. -/
theorem C1_counterexample :
    ((open_new_positions_from_signals
        (fun _ _ _ => PyResult.ok (Resp.dict "0" "" none)) 1000 [] [] 0 0
        [{ code := "000001", name := "A", side := "BUY", qty := 1, entry := 100,
           tp := none, sl := none, valid_until := none,
           fallback_valid_until := none },
         { code := "000001", name := "A", side := "BUY", qty := 1, entry := 100,
           tp := none, sl := none, valid_until := none,
           fallback_valid_until := none }]).db.map
      (fun p => (p.code, p.status))) =
      [("000001", Status.PENDING), ("000001", Status.PENDING)] := by
  unfold open_new_positions_from_signals
  rw [List.foldl_cons]
  rw [admit_step_accept _ _ _ _ _ _ (Resp.dict "0" "" none)
    (by decide) (by decide) (by decide) (by norm_num) rfl (by decide)]
  rw [List.foldl_cons, List.foldl_nil]
  rw [admit_step_accept _ _ _ _ _ _ (Resp.dict "0" "" none)
    (by decide) (by decide) (by decide) (by norm_num) rfl (by decide)]
  rfl

/-- Claim C1 as amended: a candidate whose code already has a non-terminal
(PENDING/OPEN/EXPIRED) position in the store as of the batch start is
rejected with no side effect (the state — store, budget, order log — is
unchanged); but the blocked-code set is computed once per batch and not
refreshed after an admission, so two candidates for the same code in one
batch are both admitted when cash suffices and the broker acks succeed
(second conjunct: the concrete double admission). -/
theorem C1_theorem :
    (∀ (buyL : String → Int → ℚ → PyResult Resp) (held : List String) (now : ℚ)
       (st : AdmState) (sig : Signal) (db0 : List Position) (q : Position),
      q ∈ db0 → q.code = sig.code →
      (q.status = Status.PENDING ∨ q.status = Status.OPEN ∨
        q.status = Status.EXPIRED) →
      admit_step buyL held
        (get_codes_by_status db0
          [Status.OPEN, Status.EXPIRED, Status.PENDING, Status.CLOSING])
        now st sig = st) ∧
    ((open_new_positions_from_signals
        (fun _ _ _ => PyResult.ok (Resp.dict "0" "" none)) 1000 [] [] 0 0
        [{ code := "000001", name := "A", side := "BUY", qty := 1, entry := 100,
           tp := none, sl := none, valid_until := none,
           fallback_valid_until := none },
         { code := "000001", name := "A", side := "BUY", qty := 1, entry := 100,
           tp := none, sl := none, valid_until := none,
           fallback_valid_until := none }]).db.map
      (fun p => (p.code, p.status))) =
      [("000001", Status.PENDING), ("000001", Status.PENDING)] := by
  constructor
  · intro buyL held now st sig db0 q hq hcode hst
    have hb : sig.code ∈ get_codes_by_status db0
        [Status.OPEN, Status.EXPIRED, Status.PENDING, Status.CLOSING] := by
      unfold get_codes_by_status get_positions_by_status
      refine List.mem_map.mpr ⟨q, List.mem_filter.mpr ⟨hq, ?_⟩, hcode⟩
      rcases hst with h | h | h
      · simp [h]
      · simp [h]
      · simp [h]
    unfold admit_step
    dsimp only
    by_cases h1 : pyUpper (if sig.side = "" then "BUY" else sig.side) ≠ "BUY"
    · rw [if_pos h1]
    · rw [if_neg h1]
      by_cases h2 : sig.code ∈ held
      · rw [if_pos h2]
      · rw [if_neg h2, if_pos hb]
  · unfold open_new_positions_from_signals
    rw [List.foldl_cons]
    rw [admit_step_accept _ _ _ _ _ _ (Resp.dict "0" "" none)
      (by decide) (by decide) (by decide) (by norm_num) rfl (by decide)]
    rw [List.foldl_cons, List.foldl_nil]
    rw [admit_step_accept _ _ _ _ _ _ (Resp.dict "0" "" none)
      (by decide) (by decide) (by decide) (by norm_num) rfl (by decide)]
    rfl

/-- Claim C1, witness: a candidate for code 000001 while the store holds
an OPEN position for 000001 (as of batch start) is rejected with no side
effect. -/
theorem C1_witness :
    admit_step (fun _ _ _ => PyResult.ok (Resp.dict "0" "" none)) []
      (get_codes_by_status
        [{ id := 3, code := "000001", name := "A", side := "BUY", qty := 1,
           entry := 100, tp := none, sl := none, open_time := 0,
           close_time := none, status := Status.OPEN, exit_price := none,
           exit_reason := none, valid_until := none, gross_pnl := none,
           pnl_pct := none, holding_days_real := none, note := { base := "" } }]
        [Status.OPEN, Status.EXPIRED, Status.PENDING, Status.CLOSING])
      0
      { db :=
          [{ id := 3, code := "000001", name := "A", side := "BUY", qty := 1,
             entry := 100, tp := none, sl := none, open_time := 0,
             close_time := none, status := Status.OPEN, exit_price := none,
             exit_reason := none, valid_until := none, gross_pnl := none,
             pnl_pct := none, holding_days_real := none, note := { base := "" } }],
        nextId := 5, remaining := 1000, orders := [] }
      { code := "000001", name := "A", side := "BUY", qty := 1, entry := 100,
        tp := none, sl := none, valid_until := none,
        fallback_valid_until := none } =
      { db :=
          [{ id := 3, code := "000001", name := "A", side := "BUY", qty := 1,
             entry := 100, tp := none, sl := none, open_time := 0,
             close_time := none, status := Status.OPEN, exit_price := none,
             exit_reason := none, valid_until := none, gross_pnl := none,
             pnl_pct := none, holding_days_real := none, note := { base := "" } }],
        nextId := 5, remaining := 1000, orders := [] } :=
  C1_theorem.1 (fun _ _ _ => PyResult.ok (Resp.dict "0" "" none)) [] 0
    { db :=
        [{ id := 3, code := "000001", name := "A", side := "BUY", qty := 1,
           entry := 100, tp := none, sl := none, open_time := 0,
           close_time := none, status := Status.OPEN, exit_price := none,
           exit_reason := none, valid_until := none, gross_pnl := none,
           pnl_pct := none, holding_days_real := none, note := { base := "" } }],
      nextId := 5, remaining := 1000, orders := [] }
    { code := "000001", name := "A", side := "BUY", qty := 1, entry := 100,
      tp := none, sl := none, valid_until := none, fallback_valid_until := none }
    [{ id := 3, code := "000001", name := "A", side := "BUY", qty := 1,
       entry := 100, tp := none, sl := none, open_time := 0,
       close_time := none, status := Status.OPEN, exit_price := none,
       exit_reason := none, valid_until := none, gross_pnl := none,
       pnl_pct := none, holding_days_real := none, note := { base := "" } }]
    { id := 3, code := "000001", name := "A", side := "BUY", qty := 1,
      entry := 100, tp := none, sl := none, open_time := 0,
      close_time := none, status := Status.OPEN, exit_price := none,
      exit_reason := none, valid_until := none, gross_pnl := none,
      pnl_pct := none, holding_days_real := none, note := { base := "" } }
    (by decide) rfl (Or.inr (Or.inl rfl))

/-- Claim C4, counterexample: an accepted candidate with requested entry
price 100040 has its limit buy submitted at 100040 itself, not at the
tick-aligned 100000 — the claim says the aligned price is used. -/
theorem C4_counterexample :
    (open_new_positions_from_signals
        (fun _ _ _ => PyResult.ok (Resp.dict "0" "" none)) 200000 [] [] 0 0
        [{ code := "000001", name := "A", side := "BUY", qty := 1,
           entry := 100040, tp := none, sl := none, valid_until := none,
           fallback_valid_until := none }]).orders =
      [Order.buyLimit "000001" 1 100040] ∧
    align_price_to_tick 100040 "BUY" = 100000 ∧ (100040 : ℚ) ≠ (100000 : ℚ) := by
  refine ⟨?_, rfl, by decide⟩
  unfold open_new_positions_from_signals
  rw [List.foldl_cons, List.foldl_nil]
  rw [admit_step_accept _ _ _ _ _ _ (Resp.dict "0" "" none)
    (by decide) (by decide) (by decide) (by norm_num) rfl (by decide)]
  rfl

/-- Claim C4 as amended: for every candidate that passes the four
admission checks, the limit buy order is submitted at the raw requested
entry price — no tick alignment is applied at admission (the
`align_price_to_tick` call at kis_trading.py:352 is commented out in
favour of `price_int = entry`). -/
theorem C4_theorem (buyL : String → Int → ℚ → PyResult Resp)
    (held blocked : List String) (now : ℚ) (st : AdmState) (sig : Signal)
    (hside : pyUpper (if sig.side = "" then "BUY" else sig.side) = "BUY")
    (hheld : sig.code ∉ held) (hblk : sig.code ∉ blocked)
    (hcost : ¬ st.remaining < sig.entry * (sig.qty : ℚ)) :
    (admit_step buyL held blocked now st sig).orders =
      st.orders ++ [Order.buyLimit sig.code sig.qty sig.entry] := by
  unfold admit_step
  rw [hside]
  rw [if_neg (by simp)]
  rw [if_neg hheld, if_neg hblk, if_neg hcost]
  dsimp only
  cases buyL sig.code sig.qty sig.entry with
  | exn => rfl
  | ok resp =>
    dsimp only
    by_cases hk : is_kis_order_ok resp = true
    · rw [if_neg (by simp [hk])]
    · rw [if_pos (by simp [hk])]

/-- Claim C4, witness: a BUY candidate for 000001, qty 1, entry 100040,
not held, not blocked, within budget, has its order submitted at price
100040. -/
theorem C4_witness :
    (admit_step (fun _ _ _ => PyResult.ok (Resp.dict "0" "" none)) [] [] 0
      { db := [], nextId := 0, remaining := 200000, orders := [] }
      { code := "000001", name := "A", side := "BUY", qty := 1, entry := 100040,
        tp := none, sl := none, valid_until := none,
        fallback_valid_until := none }).orders =
      [] ++ [Order.buyLimit "000001" 1 100040] :=
  C4_theorem (fun _ _ _ => PyResult.ok (Resp.dict "0" "" none)) [] [] 0
    { db := [], nextId := 0, remaining := 200000, orders := [] }
    { code := "000001", name := "A", side := "BUY", qty := 1, entry := 100040,
      tp := none, sl := none, valid_until := none, fallback_valid_until := none }
    (by decide) (by decide) (by decide)
    (by simp only [Int.cast_one, mul_one]; decide)

end YilTrAuto
